import Mathlib

/-!
Verification of the groupcache_oauth2 client-credentials flow.

The definitions below are a shallow embedding of the Go sources:
- `src/clientcredentials/clientcredentials.go` (current client: `New`,
  `Do`, `DoWithOutput`, `send`, `getToken`),
- `src/unnamed/part_002` and `src/unnamed/part_003` (the token-endpoint
  request construction `fetchToken` and the response parser `parseToken`).

Effectful boundaries (HTTP transport, the groupcache engine, JSON
byte-level decoding by `encoding/json`, wall-clock reads) are modelled as
explicit inputs: the transport and cache outcomes are fields of a `World`
record, the decoded JSON object is an association list (Go maps have
unique keys; `List.lookup` returns the binding), and `time.Now()` is a
plain integer parameter (nanoseconds). Go `time.Duration` values are
integers counting nanoseconds; Go `int` is modelled as `Int` (overflow
is irrelevant at the magnitudes the claims concern, except in `atoi`
where Go's 64-bit range check is part of the observable behavior and is
modelled explicitly).
-/

namespace ClientCredentials

/-- Nanoseconds in one second: the value of Go `time.Second`. -/
def nsPerSec : Int := 1000000000

/-- JSON values as produced by Go `json.Unmarshal` into `interface{}`:
numbers decode to `float64` (modelled as exact rationals), objects to
`map[string]interface{}` (modelled as association lists). -/
inductive Jval where
  | jstr : String → Jval
  | jnum : Rat → Jval
  | jbool : Bool → Jval
  | jnull : Jval
  | jarr : List Jval → Jval
  | jobj : List (String × Jval) → Jval

/-- Go `%T` rendering of a `json.Unmarshal` result, as used by the
default branch of `parseToken`'s `expires_in` switch. -/
def jvalGoType : Jval → String
  | Jval.jstr _ => "string"
  | Jval.jnum _ => "float64"
  | Jval.jbool _ => "bool"
  | Jval.jnull => "<nil>"
  | Jval.jarr _ => "[]interface \x7b\x7d"
  | Jval.jobj _ => "map[string]interface \x7b\x7d"

/-- Truncation of a rational toward zero, the semantics of Go's
`time.Duration(f)` conversion from `float64` (within int64 range). -/
def ratTrunc (q : Rat) : Int := Int.tdiv q.num (q.den : Int)

/-- Parsed token: `tokenInfo` struct of the Go sources.
`expiresIn` is a `time.Duration` in nanoseconds. -/
structure TokenInfo where
  accessToken : String
  expiresIn : Int
  deriving DecidableEq, Repr

/-- Digit-string accumulator used by `atoi`: `none` on any non-ASCII-digit
character (Go `strconv` accepts only ASCII digits in base 10). -/
def parseDigits : List Char → Nat → Option Nat
  | [], acc => some acc
  | c :: rest, acc =>
    if c.isDigit then parseDigits rest (acc * 10 + (c.toNat - 48)) else none

/-- Embedding of Go `strconv.Atoi`: optional sign, then one or more ASCII
digits; empty or malformed input is a syntax error, and values outside
the 64-bit signed range are a range error (Go `int` is 64-bit here). -/
def atoi (s : String) : Except String Int :=
  let syntaxErr : Except String Int :=
    Except.error ("strconv.Atoi: parsing \"" ++ s ++ "\": invalid syntax")
  let rangeErr : Except String Int :=
    Except.error ("strconv.Atoi: parsing \"" ++ s ++ "\": value out of range")
  let signDigits : Bool × List Char :=
    match s.data with
    | '-' :: rest => (true, rest)
    | '+' :: rest => (false, rest)
    | cs => (false, cs)
  match signDigits with
  | (neg, digits) =>
    if digits.isEmpty then syntaxErr
    else
      match parseDigits digits 0 with
      | none => syntaxErr
      | some n =>
        if neg then
          if n ≤ 9223372036854775808 then Except.ok (-(n : Int)) else rangeErr
        else
          if n ≤ 9223372036854775807 then Except.ok (n : Int) else rangeErr

/-- Embedding of `parseToken` (src/unnamed/part_002 lines 716-761,
src/unnamed/part_003 lines 290-335), starting after `json.Unmarshal` has
produced the object `data` (the `errJSON != nil` early return is the
stdlib boundary). Field access `data["k"]` with its found-flag is
`List.lookup`; the `accessToken.(string)` type assertion succeeds exactly
on the `jstr` constructor; the `expires_in` type switch mirrors the Go
`float64` / `string` / default cases, including the duration arithmetic
`time.Second * time.Duration(v)`. -/
def parseToken (data : List (String × Jval)) : Except String TokenInfo :=
  match data.lookup "access_token" with
  | none => Except.error "missing access_token field in token response"
  | some v =>
    match v with
    | Jval.jstr tokenStr =>
      if tokenStr = "" then Except.error "empty access_token in token response"
      else
        match data.lookup "expires_in" with
        | none => Except.ok { accessToken := tokenStr, expiresIn := 0 }
        | some ev =>
          match ev with
          | Jval.jnum q =>
            Except.ok { accessToken := tokenStr, expiresIn := nsPerSec * ratTrunc q }
          | Jval.jstr es =>
            match atoi es with
            | Except.ok exp =>
              Except.ok { accessToken := tokenStr, expiresIn := nsPerSec * exp }
            | Except.error msg =>
              Except.error ("error converting expires_in field from string=\x27"
                ++ es ++ "\x27 to int: " ++ msg)
          | other =>
            Except.error ("unexpected type " ++ jvalGoType other
              ++ " for expires_in field in token response")
    | _ => Except.error "non-string value for access_token field in token response"

/-- HTTP headers: Go `http.Header` restricted to the operations the client
uses (`Get`, `Set`, `Del`). An association list; `Get` returns the first
binding or the empty string, matching `http.Header.Get`. Name
canonicalization is omitted because every access in the sources goes
through the same canonicalizing accessors, so it is observationally
inert. -/
abbrev Headers : Type := List (String × String)

/-- Go `http.Header.Get`: first value for the key, or the empty string. -/
def headerGet (h : Headers) (k : String) : String :=
  match List.lookup k h with
  | some v => v
  | none => ""

/-- Go `http.Header.Del`: remove every binding of the key. -/
def headerDel (h : Headers) (k : String) : Headers :=
  List.filter (fun p => p.1 ≠ k) h

/-- Go `http.Header.Set`: replace all bindings of the key by one value. -/
def headerSet (h : Headers) (k v : String) : Headers :=
  (k, v) :: headerDel h k

/-- The fields of `Options` (clientcredentials.go lines 24-119) that the
claims exercise. `isBadTokenStatus` is the predicate after `New`'s
nil-defaulting (Lean functions are total, so the nil case cannot arise;
the default itself is `defaultBadTokenStatusFunc`). -/
structure Options where
  tokenURL : String
  clientID : String
  clientSecret : String
  scope : String
  softExpireInSeconds : Int
  getCredentialsFromRequestHeader : Bool
  getCredentialsFromRequestHeaderDontFallbackToStatic : Bool
  forwardHeaderClientSecret : Bool
  preventForwardingHeaderClientID : Bool
  headerClientID : String
  headerClientSecret : String
  isBadTokenStatus : Int → Bool

/-- `DefaultBadTokenStatusFunc` (clientcredentials.go lines 123-125). -/
def defaultBadTokenStatusFunc (status : Int) : Bool := status == 401

/-- Option normalization performed by `New` (clientcredentials.go lines
144-161): the soft-expire switch (0 to 10, -1 to 0) and the default
header names. -/
def normalizeOptions (options : Options) : Options :=
  let options := { options with softExpireInSeconds :=
    if options.softExpireInSeconds = 0 then 10
    else if options.softExpireInSeconds = -1 then 0
    else options.softExpireInSeconds }
  let options := { options with headerClientID :=
    if options.headerClientID = "" then "oauth2-client-id"
    else options.headerClientID }
  { options with headerClientSecret :=
    if options.headerClientSecret = "" then "oauth2-client-secret"
    else options.headerClientSecret }

/-- The `getCredentials` closure installed by `New` when
`GetCredentialsFromRequestHeader` is set (clientcredentials.go lines
171-189): read the two configured headers, and unless fallback is
disabled substitute the static value for an empty header value,
independently per field. The Go closure returns a plain pair — header
credential resolution cannot fail. -/
def getCredentials (options : Options) (h : Headers) : String × String :=
  let id := headerGet h options.headerClientID
  let secret := headerGet h options.headerClientSecret
  if !options.getCredentialsFromRequestHeaderDontFallbackToStatic then
    let id := if id = "" then options.clientID else id
    let secret := if secret = "" then options.clientSecret else secret
    (id, secret)
  else
    (id, secret)

/-- An HTTP request: the parts `DoWithOutput` reads or writes. -/
structure Request where
  method : String
  url : String
  body : String
  header : Headers
  deriving DecidableEq

/-- An HTTP response: only the status code is inspected by the client. -/
structure Response where
  statusCode : Int
  deriving DecidableEq

/-- `Output` (clientcredentials.go lines 254-262). Errors are modelled as
their message strings; `none` is Go `nil`. -/
structure Output where
  clientID : String
  response : Option Response
  error : Option String
  deriving DecidableEq

/-- Outcomes of the effectful collaborators during one `DoWithOutput`
call: the groupcache `Get` result for this call's key (single-flight,
token fetch and caching behind it), the HTTP transport, and the
groupcache `Remove` outcome (`some e` is a failed removal). -/
structure World where
  cacheGet : Except String String
  httpDo : Request → Except String Response
  removeError : Option String

/-- Observable trace of one `DoWithOutput` call: the cache key and info
passed to `group.Get` (getToken, clientcredentials.go lines 320-333),
the outbound request given to the transport, the key passed to
`group.Remove` if eviction was triggered, and the error log. -/
structure Trace where
  getKey : String
  getInfo : Option (String × String)
  sentRequest : Option Request
  removedKey : Option String
  log : List String
  deriving DecidableEq

/-- Credential resolution as performed by `getToken` (clientcredentials.go
lines 320-329): with header mode on, the resolved pair becomes the cache
key (id) and the groupcache `Info` context; otherwise the static
`ClientID` is the key and no info travels. -/
def resolveForGet (options : Options) (h : Headers) : String × Option (String × String) :=
  if options.getCredentialsFromRequestHeader then
    let p := getCredentials options h
    (p.1, some p)
  else
    (options.clientID, none)

/-- The outbound request that `DoWithOutput` hands to the transport:
header stripping (clientcredentials.go lines 282-291) followed by
`send`'s Authorization header write (line 316). -/
def outboundRequest (options : Options) (req : Request) (accessToken : String) : Request :=
  let req1 :=
    if options.getCredentialsFromRequestHeader then
      let r1 :=
        if !options.forwardHeaderClientSecret then
          { req with header := headerDel req.header options.headerClientSecret }
        else req
      if options.preventForwardingHeaderClientID then
        { r1 with header := headerDel r1.header options.headerClientID }
      else r1
    else req
  { req1 with header := headerSet req1.header "Authorization" ("Bearer " ++ accessToken) }

/-- Embedding of `DoWithOutput` (clientcredentials.go lines 269-313)
together with `getToken` and `send`, parametrized by the collaborator
outcomes in `w`. Mirrors the source line by line: on a `getToken` error
the zero-valued `Output` gains only the error; on success the resolved
clientID is recorded, the request is decorated and sent; a transport
error is returned with the clientID; on a response satisfying the
bad-token predicate, `group.Remove` is invoked on the STATIC
`options.ClientID` (line 306) and a removal failure is only logged. -/
def doWithOutput (options : Options) (w : World) (req : Request) : Output × Trace :=
  let rg := resolveForGet options req.header
  match w.cacheGet with
  | Except.error e =>
    ({ clientID := "", response := none, error := some e },
     { getKey := rg.1, getInfo := rg.2, sentRequest := none,
       removedKey := none, log := [] })
  | Except.ok accessToken =>
    let req2 := outboundRequest options req accessToken
    match w.httpDo req2 with
    | Except.error e =>
      ({ clientID := rg.1, response := none, error := some e },
       { getKey := rg.1, getInfo := rg.2, sentRequest := some req2,
         removedKey := none, log := [] })
    | Except.ok resp =>
      if options.isBadTokenStatus resp.statusCode then
        ({ clientID := rg.1, response := some resp, error := none },
         { getKey := rg.1, getInfo := rg.2, sentRequest := some req2,
           removedKey := some options.clientID,
           log := match w.removeError with
                  | some e => ["ERROR: cache remove error: " ++ e]
                  | none => [] })
      else
        ({ clientID := rg.1, response := some resp, error := none },
         { getKey := rg.1, getInfo := rg.2, sentRequest := some req2,
           removedKey := none, log := [] })

/-- Embedding of `Do` (clientcredentials.go lines 248-251): call
`DoWithOutput` and return its Response and Error components. -/
def clientDo (options : Options) (w : World) (req : Request) :
    Option Response × Option String :=
  let out := (doWithOutput options w req).1
  (out.response, out.error)

/-- Expiry computed by the groupcache getter closure (clientcredentials.go
lines 207-221) on a successful fetch: `softExpire` is the normalized
option converted to a duration, and the stored expiry is
`time.Now().Add(ti.expiresIn - softExpire)`. Times are absolute
nanoseconds. -/
def getterExpire (options : Options) (now expiresInNs : Int) : Int :=
  now + (expiresInNs - options.softExpireInSeconds * nsPerSec)

/-- The token-endpoint request built by `fetchToken` (src/unnamed/part_002
lines 663-679, part_003 lines 237-253): method, URL, Content-Type
header, and the form fields in `Add` order. `url.Values.Encode`
percent-encodes and sorts the pairs; the claims concern which fields the
body carries, which the pair list determines. -/
structure TokenRequest where
  method : String
  url : String
  contentTypeHeader : String
  form : List (String × String)
  deriving DecidableEq

/-- Form and request construction of `fetchToken`: `grant_type`,
`client_id`, `client_secret` always; `scope` added only when the
configured scope is non-empty. -/
def buildTokenRequest (tokenURL clientID clientSecret scope : String) : TokenRequest :=
  let form := [("grant_type", "client_credentials"),
               ("client_id", clientID),
               ("client_secret", clientSecret)]
  let form := if scope ≠ "" then form ++ [("scope", scope)] else form
  { method := "POST", url := tokenURL,
    contentTypeHeader := "application/x-www-form-urlencoded",
    form := form }

/-- Concrete client configuration with header-based credentials enabled
and a static ClientID distinct from the header-resolved one. -/
def c1Options : Options :=
  { tokenURL := "http://ts/token", clientID := "static-id",
    clientSecret := "static-secret", scope := "",
    softExpireInSeconds := 10,
    getCredentialsFromRequestHeader := true,
    getCredentialsFromRequestHeaderDontFallbackToStatic := false,
    forwardHeaderClientSecret := false,
    preventForwardingHeaderClientID := false,
    headerClientID := "oauth2-client-id",
    headerClientSecret := "oauth2-client-secret",
    isBadTokenStatus := defaultBadTokenStatusFunc }

/-- Request carrying header credentials for an identity different from
the static configuration. -/
def c1Request : Request :=
  { method := "GET", url := "http://target/x", body := "",
    header := [("oauth2-client-id", "header-id"),
               ("oauth2-client-secret", "header-secret")] }

/-- World where the cache yields a token and the resource server answers
401, triggering the bad-token eviction path. -/
def c1World : World :=
  { cacheGet := Except.ok "tok-1",
    httpDo := fun _ => Except.ok { statusCode := 401 },
    removeError := none }

/-- Static-credentials configuration used for the C5 scenario. -/
def c5Options : Options :=
  { tokenURL := "http://ts/token", clientID := "clientID",
    clientSecret := "clientSecret", scope := "",
    softExpireInSeconds := 10,
    getCredentialsFromRequestHeader := false,
    getCredentialsFromRequestHeaderDontFallbackToStatic := false,
    forwardHeaderClientSecret := false,
    preventForwardingHeaderClientID := false,
    headerClientID := "oauth2-client-id",
    headerClientSecret := "oauth2-client-secret",
    isBadTokenStatus := defaultBadTokenStatusFunc }

/-- Plain request with no credential headers. -/
def c5Request : Request :=
  { method := "GET", url := "http://target/x", body := "", header := [] }

/-- World where obtaining the token from the cache fails. -/
def c5World : World :=
  { cacheGet := Except.error "boom",
    httpDo := fun _ => Except.ok { statusCode := 200 },
    removeError := none }

/-- Header-mode configuration with fallback enabled, used by the C6
witness. -/
def c6Options : Options :=
  { tokenURL := "http://ts/token", clientID := "static-id",
    clientSecret := "static-secret", scope := "",
    softExpireInSeconds := 10,
    getCredentialsFromRequestHeader := true,
    getCredentialsFromRequestHeaderDontFallbackToStatic := false,
    forwardHeaderClientSecret := false,
    preventForwardingHeaderClientID := false,
    headerClientID := "oauth2-client-id",
    headerClientSecret := "oauth2-client-secret",
    isBadTokenStatus := defaultBadTokenStatusFunc }

/-- Static-credentials configuration used by the C7 witness. -/
def c7Options : Options :=
  { tokenURL := "http://ts/token", clientID := "cid-7",
    clientSecret := "sec-7", scope := "",
    softExpireInSeconds := 10,
    getCredentialsFromRequestHeader := false,
    getCredentialsFromRequestHeaderDontFallbackToStatic := false,
    forwardHeaderClientSecret := false,
    preventForwardingHeaderClientID := false,
    headerClientID := "oauth2-client-id",
    headerClientSecret := "oauth2-client-secret",
    isBadTokenStatus := defaultBadTokenStatusFunc }

/-- Plain request used by the C7 witness. -/
def c7Request : Request :=
  { method := "GET", url := "http://target/z", body := "", header := [] }

/-- World for the C7 witness: cache yields a token, the resource server
answers 401, and the eviction fails. -/
def c7World : World :=
  { cacheGet := Except.ok "tok-1",
    httpDo := fun _ => Except.ok { statusCode := 401 },
    removeError := some "peer unreachable" }

/-- Header-mode configuration with default forwarding flags, used by the
C9 witness. -/
def c9Options : Options :=
  { tokenURL := "http://ts/token", clientID := "cid-9",
    clientSecret := "sec-9", scope := "",
    softExpireInSeconds := 10,
    getCredentialsFromRequestHeader := true,
    getCredentialsFromRequestHeaderDontFallbackToStatic := false,
    forwardHeaderClientSecret := false,
    preventForwardingHeaderClientID := false,
    headerClientID := "oauth2-client-id",
    headerClientSecret := "oauth2-client-secret",
    isBadTokenStatus := defaultBadTokenStatusFunc }

/-- Request with credential headers plus an unrelated header, used by the
C9 witness to observe stripping and framing. -/
def c9Request : Request :=
  { method := "POST", url := "http://target/y", body := "payload",
    header := [("oauth2-client-id", "header-id"),
               ("oauth2-client-secret", "header-secret"),
               ("X-Other", "keep")] }

/-- World for the C9 witness: cache yields a token and the resource
server answers 200. -/
def c9World : World :=
  { cacheGet := Except.ok "tok9",
    httpDo := fun _ => Except.ok { statusCode := 200 },
    removeError := none }

theorem lookup_del_other (h : Headers) (k k2 : String) (hne : k2 ≠ k) :
    List.lookup k2 (headerDel h k) = List.lookup k2 h := by
  induction h with
  | nil => rfl
  | cons p t ih =>
    unfold headerDel at ih ⊢
    rw [List.filter_cons]
    by_cases hp : p.1 = k
    · have hd : decide (p.1 ≠ k) = false := by simp [hp]
      have hbeq : (k2 == p.1) = false := by
        apply beq_eq_false_iff_ne.mpr
        rw [hp]
        exact hne
      rw [hd]
      simp only [Bool.false_eq_true, if_false, List.lookup, hbeq, ih]
    · have hd : decide (p.1 ≠ k) = true := by simp [hp]
      rw [hd]
      simp only [if_true, List.lookup, ih]

theorem headerGet_del_other (h : Headers) (k k2 : String) (hne : k2 ≠ k) :
    headerGet (headerDel h k) k2 = headerGet h k2 := by
  unfold headerGet
  rw [lookup_del_other h k k2 hne]

theorem lookup_del_same (h : Headers) (k : String) :
    List.lookup k (headerDel h k) = none := by
  induction h with
  | nil => rfl
  | cons p t ih =>
    unfold headerDel at ih ⊢
    rw [List.filter_cons]
    by_cases hp : p.1 = k
    · have hd : decide (p.1 ≠ k) = false := by simp [hp]
      rw [hd]
      simpa using ih
    · have hd : decide (p.1 ≠ k) = true := by simp [hp]
      have hbeq : (k == p.1) = false :=
        beq_eq_false_iff_ne.mpr fun hh => hp hh.symm
      rw [hd]
      simp only [if_true, List.lookup, hbeq, ih]

theorem headerGet_del_same (h : Headers) (k : String) :
    headerGet (headerDel h k) k = "" := by
  unfold headerGet
  rw [lookup_del_same h k]

theorem headerGet_set_same (h : Headers) (k v : String) :
    headerGet (headerSet h k v) k = v := by
  simp [headerGet, headerSet, List.lookup]

theorem headerGet_set_other (h : Headers) (k v k2 : String) (hne : k2 ≠ k) :
    headerGet (headerSet h k v) k2 = headerGet h k2 := by
  have hbeq : (k2 == k) = false := beq_eq_false_iff_ne.mpr hne
  unfold headerGet headerSet
  simp only [List.lookup, hbeq]
  rw [lookup_del_other h k k2 hne]

/-- C10: `Do(req)` returns exactly the Response and Error components of
`DoWithOutput(req)`; the two entry points differ only in that `Do`
discards the resolved ClientID. -/
theorem c10_do_equals_doWithOutput (options : Options) (w : World) (req : Request) :
    clientDo options w req =
      ((doWithOutput options w req).1.response, (doWithOutput options w req).1.error) :=
  rfl

/-- C4: for every successful token fetch, the stored expiry is
`now + timeToLive - softExpire`, where softExpire is the configured
soft-expire seconds after `New`'s mapping: a configured 0 becomes 10
seconds, a configured -1 becomes 0 seconds, and any other value is used
as-is. -/
theorem c4_expiry_formula (options : Options) (now ttlNs : Int) :
    getterExpire (normalizeOptions options) now ttlNs =
      now + ttlNs -
        (if options.softExpireInSeconds = 0 then 10
         else if options.softExpireInSeconds = -1 then 0
         else options.softExpireInSeconds) * nsPerSec := by
  unfold getterExpire normalizeOptions
  split_ifs <;> ring

/-- C8: every token fetch posts to the configured token URL with
Content-Type application/x-www-form-urlencoded and a form body carrying
grant_type=client_credentials, client_id and client_secret, with scope
present if and only if the configured scope is non-empty. -/
theorem c8_token_request_shape (tokenURL clientID clientSecret scope : String) :
    (buildTokenRequest tokenURL clientID clientSecret scope).method = "POST" ∧
    (buildTokenRequest tokenURL clientID clientSecret scope).url = tokenURL ∧
    (buildTokenRequest tokenURL clientID clientSecret scope).contentTypeHeader =
      "application/x-www-form-urlencoded" ∧
    List.lookup "grant_type" (buildTokenRequest tokenURL clientID clientSecret scope).form =
      some "client_credentials" ∧
    List.lookup "client_id" (buildTokenRequest tokenURL clientID clientSecret scope).form =
      some clientID ∧
    List.lookup "client_secret" (buildTokenRequest tokenURL clientID clientSecret scope).form =
      some clientSecret ∧
    List.lookup "scope" (buildTokenRequest tokenURL clientID clientSecret scope).form =
      (if scope = "" then none else some scope) := by
  by_cases hs : scope = "" <;>
    simp [buildTokenRequest, hs, List.lookup]

/-- C2: the parser requires access_token to be a non-empty string and
fails with three distinct messages for the three causes — field absent,
field present with a non-string value, field present as the empty
string — producing no token in each case. -/
theorem c2_access_token_required (data : List (String × Jval)) :
    (List.lookup "access_token" data = none →
      parseToken data =
        Except.error "missing access_token field in token response") ∧
    (∀ v, List.lookup "access_token" data = some v → (∀ s, v ≠ Jval.jstr s) →
      parseToken data =
        Except.error "non-string value for access_token field in token response") ∧
    (List.lookup "access_token" data = some (Jval.jstr "") →
      parseToken data =
        Except.error "empty access_token in token response") ∧
    ("missing access_token field in token response" ≠
       "non-string value for access_token field in token response") ∧
    ("missing access_token field in token response" ≠
       "empty access_token in token response") ∧
    ("non-string value for access_token field in token response" ≠
       "empty access_token in token response") := by
  refine ⟨?_, ?_, ?_, by decide, by decide, by decide⟩
  · intro h
    simp [parseToken, h]
  · intro v hv hns
    cases v with
    | jstr s => exact absurd rfl (hns s)
    | jnum q => simp [parseToken, hv]
    | jbool b => simp [parseToken, hv]
    | jnull => simp [parseToken, hv]
    | jarr l => simp [parseToken, hv]
    | jobj o => simp [parseToken, hv]
  · intro h
    simp [parseToken, h]

/-- Witness for C2 at concrete token-response objects exercising the
three failure causes. -/
theorem c2_access_token_required_witness :
    parseToken [("other", Jval.jstr "x")] =
      Except.error "missing access_token field in token response" ∧
    parseToken [("access_token", Jval.jnum 123)] =
      Except.error "non-string value for access_token field in token response" ∧
    parseToken [("access_token", Jval.jstr "")] =
      Except.error "empty access_token in token response" := by
  refine ⟨?_, ?_, ?_⟩
  · exact (c2_access_token_required [("other", Jval.jstr "x")]).1 rfl
  · exact (c2_access_token_required [("access_token", Jval.jnum 123)]).2.1
      (Jval.jnum 123) rfl (fun s hh => nomatch hh)
  · exact (c2_access_token_required [("access_token", Jval.jstr "")]).2.2.1 rfl

/-- C3: with a valid access_token, expires_in as a JSON number is taken
as seconds truncated at second granularity; a numeric string is taken as
integer seconds; a non-numeric string (per strconv.Atoi, including the
empty string) fails; any other JSON type fails; and an absent expires_in
leaves a zero time-to-live. -/
theorem c3_expires_in_forms (data : List (String × Jval)) (s : String)
    (htok : List.lookup "access_token" data = some (Jval.jstr s)) (hne : s ≠ "") :
    (∀ q : Rat, List.lookup "expires_in" data = some (Jval.jnum q) →
      parseToken data =
        Except.ok { accessToken := s, expiresIn := nsPerSec * ratTrunc q }) ∧
    (∀ es n, List.lookup "expires_in" data = some (Jval.jstr es) →
      atoi es = Except.ok n →
      parseToken data =
        Except.ok { accessToken := s, expiresIn := nsPerSec * n }) ∧
    (∀ es msg, List.lookup "expires_in" data = some (Jval.jstr es) →
      atoi es = Except.error msg →
      ∃ emsg, parseToken data = Except.error emsg) ∧
    (∀ v, List.lookup "expires_in" data = some v →
      (∀ q, v ≠ Jval.jnum q) → (∀ t, v ≠ Jval.jstr t) →
      ∃ emsg, parseToken data = Except.error emsg) ∧
    (List.lookup "expires_in" data = none →
      parseToken data = Except.ok { accessToken := s, expiresIn := 0 }) := by
  refine ⟨?_, ?_, ?_, ?_, ?_⟩
  · intro q hq
    simp [parseToken, htok, hne, hq]
  · intro es n hes hn
    simp [parseToken, htok, hne, hes, hn]
  · intro es msg hes hmsg
    exact ⟨"error converting expires_in field from string=\x27" ++ es
        ++ "\x27 to int: " ++ msg,
      by simp [parseToken, htok, hne, hes, hmsg]⟩
  · intro v hv hnq hns
    cases v with
    | jnum q => exact absurd rfl (hnq q)
    | jstr t => exact absurd rfl (hns t)
    | jbool b =>
      exact ⟨"unexpected type " ++ jvalGoType (Jval.jbool b)
          ++ " for expires_in field in token response",
        by simp [parseToken, htok, hne, hv]⟩
    | jnull =>
      exact ⟨"unexpected type " ++ jvalGoType Jval.jnull
          ++ " for expires_in field in token response",
        by simp [parseToken, htok, hne, hv]⟩
    | jarr l =>
      exact ⟨"unexpected type " ++ jvalGoType (Jval.jarr l)
          ++ " for expires_in field in token response",
        by simp [parseToken, htok, hne, hv]⟩
    | jobj o =>
      exact ⟨"unexpected type " ++ jvalGoType (Jval.jobj o)
          ++ " for expires_in field in token response",
        by simp [parseToken, htok, hne, hv]⟩
  · intro h
    simp [parseToken, htok, hne, h]

/-- Witness for C3: fractional number 300.7 truncates to 300 seconds,
numeric string "300" gives 300 seconds, non-numeric string and boolean
fail, absent expires_in gives zero time-to-live. -/
theorem c3_expires_in_forms_witness :
    parseToken [("access_token", Jval.jstr "abc"),
                ("expires_in", Jval.jnum ((3007 : Rat) / 10))] =
      Except.ok { accessToken := "abc", expiresIn := 300000000000 } ∧
    parseToken [("access_token", Jval.jstr "abc"),
                ("expires_in", Jval.jstr "300")] =
      Except.ok { accessToken := "abc", expiresIn := 300000000000 } ∧
    (∃ emsg, parseToken [("access_token", Jval.jstr "abc"),
                ("expires_in", Jval.jstr "TTT")] = Except.error emsg) ∧
    (∃ emsg, parseToken [("access_token", Jval.jstr "abc"),
                ("expires_in", Jval.jbool true)] = Except.error emsg) ∧
    parseToken [("access_token", Jval.jstr "abc")] =
      Except.ok { accessToken := "abc", expiresIn := 0 } := by
  refine ⟨?_, ?_, ?_, ?_, ?_⟩
  · have h := (c3_expires_in_forms
      [("access_token", Jval.jstr "abc"), ("expires_in", Jval.jnum ((3007 : Rat) / 10))]
      "abc" rfl (by decide)).1 ((3007 : Rat) / 10) rfl
    exact h.trans (by norm_num [nsPerSec, ratTrunc, Int.tdiv])
  · have h := (c3_expires_in_forms
      [("access_token", Jval.jstr "abc"), ("expires_in", Jval.jstr "300")]
      "abc" rfl (by decide)).2.1 "300" 300 rfl rfl
    exact h.trans (by norm_num [nsPerSec])
  · exact (c3_expires_in_forms
      [("access_token", Jval.jstr "abc"), ("expires_in", Jval.jstr "TTT")]
      "abc" rfl (by decide)).2.2.1 "TTT"
      ("strconv.Atoi: parsing \"TTT\": invalid syntax") rfl rfl
  · exact (c3_expires_in_forms
      [("access_token", Jval.jstr "abc"), ("expires_in", Jval.jbool true)]
      "abc" rfl (by decide)).2.2.2.1 (Jval.jbool true) rfl
      (fun q hh => nomatch hh) (fun t hh => nomatch hh)
  · exact (c3_expires_in_forms
      [("access_token", Jval.jstr "abc")] "abc" rfl (by decide)).2.2.2.2 rfl

/-- C1 evaluation at the failing input: header-based credentials resolve
clientID "header-id", which is the cache key passed to group.Get; the
response is bad-token (401); yet the key passed to group.Remove is the
static "static-id", not the resolved identity — so the rejected entry
under "header-id" is not evicted. -/
theorem c1_eviction_uses_static_key :
    (doWithOutput c1Options c1World c1Request).2.getKey = "header-id" ∧
    (doWithOutput c1Options c1World c1Request).2.removedKey = some "static-id" ∧
    (doWithOutput c1Options c1World c1Request).1.response =
      some { statusCode := 401 } ∧
    ("static-id" : String) ≠ "header-id" := by
  refine ⟨rfl, rfl, rfl, by decide⟩

/-- C5 counterexample: with static clientID "clientID" resolved for the
call and a failing cache get, the Output carries the error and no
response, but its ClientID field is empty — the resolved client_id is
not reported. -/
theorem c5_counterexample_clientid_not_reported :
    (doWithOutput c5Options c5World c5Request).1.error = some "boom" ∧
    (doWithOutput c5Options c5World c5Request).1.response = none ∧
    (resolveForGet c5Options c5Request.header).1 = "clientID" ∧
    (doWithOutput c5Options c5World c5Request).1.clientID = "" ∧
    ("" : String) ≠ "clientID" := by
  refine ⟨rfl, rfl, rfl, rfl, by decide⟩

/-- C5 amended: when obtaining the token from the cache fails, the call
returns no response and the error, and the Output's ClientID field is
left empty (the zero value) rather than set to the resolved client_id. -/
theorem c5_amended_error_returns_empty_clientid (options : Options) (w : World)
    (req : Request) (e : String) (hget : w.cacheGet = Except.error e) :
    (doWithOutput options w req).1 =
      { clientID := "", response := none, error := some e } := by
  unfold doWithOutput
  rw [hget]

/-- Witness for the amended C5 at a concrete failing cache get. -/
theorem c5_amended_error_returns_empty_clientid_witness :
    (doWithOutput c5Options c5World c5Request).1 =
      { clientID := "", response := none, error := some "boom" } :=
  c5_amended_error_returns_empty_clientid c5Options c5World c5Request "boom" rfl

/-- C6: with header-based resolution on and fallback-to-static allowed,
empty header values fall back to the static values independently per
field: empty id with non-empty secret gives (static id, header secret),
non-empty id with empty secret gives (header id, static secret). The
resolver is a total function — resolution itself never errors. -/
theorem c6_independent_fallback (options : Options) (h : Headers)
    (hfb : options.getCredentialsFromRequestHeaderDontFallbackToStatic = false) :
    (headerGet h options.headerClientID = "" →
      headerGet h options.headerClientSecret ≠ "" →
      getCredentials options h =
        (options.clientID, headerGet h options.headerClientSecret)) ∧
    (headerGet h options.headerClientID ≠ "" →
      headerGet h options.headerClientSecret = "" →
      getCredentials options h =
        (headerGet h options.headerClientID, options.clientSecret)) := by
  constructor
  · intro hid hsec
    simp [getCredentials, hfb, hid, hsec]
  · intro hid hsec
    simp [getCredentials, hfb, hid, hsec]

/-- Witness for C6: each field falls back independently at concrete
header sets. -/
theorem c6_independent_fallback_witness :
    getCredentials c6Options [("oauth2-client-secret", "header-secret")] =
      ("static-id", "header-secret") ∧
    getCredentials c6Options [("oauth2-client-id", "header-id")] =
      ("header-id", "static-secret") := by
  constructor
  · exact (c6_independent_fallback c6Options
      [("oauth2-client-secret", "header-secret")] rfl).1 rfl (by decide)
  · exact (c6_independent_fallback c6Options
      [("oauth2-client-id", "header-id")] rfl).2 (by decide) rfl

/-- C7: when the response satisfies the bad-token predicate and the
eviction fails, the failure is only logged: the Output still carries the
response with no error, the Output is identical to the one of a
successful eviction, and the eviction error appears only in the log. -/
theorem c7_eviction_failure_swallowed (options : Options) (w : World)
    (req : Request) (e : String) (resp : Response)
    (hrem : w.removeError = some e)
    (hresp : (doWithOutput options w req).1.response = some resp)
    (hbad : options.isBadTokenStatus resp.statusCode = true) :
    (doWithOutput options w req).1.error = none ∧
    (doWithOutput options w req).1 =
      (doWithOutput options { w with removeError := none } req).1 ∧
    (doWithOutput options w req).2.log = ["ERROR: cache remove error: " ++ e] ∧
    (doWithOutput options w req).2.removedKey.isSome = true := by
  cases hget : w.cacheGet with
  | error e2 => simp [doWithOutput, hget] at hresp
  | ok tok =>
    cases hsend : w.httpDo (outboundRequest options req tok) with
    | error e2 => simp [doWithOutput, hget, hsend] at hresp
    | ok r =>
      by_cases hb : options.isBadTokenStatus r.statusCode = true
      · have hr : r = resp := by
          simpa [doWithOutput, hget, hsend, hb] using hresp
        subst hr
        refine ⟨?_, ?_, ?_, ?_⟩ <;>
          simp [doWithOutput, hget, hsend, hb, hrem]
      · have hr : r = resp := by
          simpa [doWithOutput, hget, hsend, hb] using hresp
        rw [← hr] at hbad
        exact absurd hbad hb

/-- Witness for C7 at a concrete call whose eviction fails. -/
theorem c7_eviction_failure_swallowed_witness :
    (doWithOutput c7Options c7World c7Request).1.error = none ∧
    (doWithOutput c7Options c7World c7Request).1 =
      (doWithOutput c7Options { c7World with removeError := none } c7Request).1 ∧
    (doWithOutput c7Options c7World c7Request).2.log =
      ["ERROR: cache remove error: peer unreachable"] ∧
    (doWithOutput c7Options c7World c7Request).2.removedKey.isSome = true := by
  have h := c7_eviction_failure_swallowed c7Options c7World c7Request
    "peer unreachable" { statusCode := 401 } rfl rfl rfl
  exact ⟨h.1, h.2.1, h.2.2.1.trans (by rfl), h.2.2.2⟩

/-- C9: for a call that used header-based credentials and proceeds to
send, the outbound request keeps method, URL and body; sets
Authorization to Bearer token; strips the consumed secret header unless
forwarding it is enabled; strips the consumed id header only when
prevention is enabled (the two flags independent); and leaves every
other header unchanged. -/
theorem c9_outbound_request_frame (options : Options) (w : World) (req : Request)
    (tok : String)
    (hmode : options.getCredentialsFromRequestHeader = true)
    (hget : w.cacheGet = Except.ok tok)
    (hsa : options.headerClientSecret ≠ "Authorization")
    (hia : options.headerClientID ≠ "Authorization")
    (his : options.headerClientID ≠ options.headerClientSecret) :
    (doWithOutput options w req).2.sentRequest =
      some (outboundRequest options req tok) ∧
    (outboundRequest options req tok).method = req.method ∧
    (outboundRequest options req tok).url = req.url ∧
    (outboundRequest options req tok).body = req.body ∧
    headerGet (outboundRequest options req tok).header "Authorization" =
      "Bearer " ++ tok ∧
    (options.forwardHeaderClientSecret = false →
      headerGet (outboundRequest options req tok).header
        options.headerClientSecret = "") ∧
    (options.forwardHeaderClientSecret = true →
      headerGet (outboundRequest options req tok).header
        options.headerClientSecret = headerGet req.header options.headerClientSecret) ∧
    (options.preventForwardingHeaderClientID = true →
      headerGet (outboundRequest options req tok).header
        options.headerClientID = "") ∧
    (options.preventForwardingHeaderClientID = false →
      headerGet (outboundRequest options req tok).header
        options.headerClientID = headerGet req.header options.headerClientID) ∧
    (∀ name, name ≠ "Authorization" → name ≠ options.headerClientSecret →
      name ≠ options.headerClientID →
      headerGet (outboundRequest options req tok).header name =
        headerGet req.header name) := by
  have hsent : (doWithOutput options w req).2.sentRequest =
      some (outboundRequest options req tok) := by
    cases hsend : w.httpDo (outboundRequest options req tok) with
    | error e => simp [doWithOutput, hget, hsend]
    | ok r =>
      by_cases hb : options.isBadTokenStatus r.statusCode = true <;>
        simp [doWithOutput, hget, hsend, hb]
  cases hf : options.forwardHeaderClientSecret <;>
    cases hp : options.preventForwardingHeaderClientID
  · -- secret stripped, id forwarded (the default configuration)
    have hob : (outboundRequest options req tok).header =
        headerSet (headerDel req.header options.headerClientSecret)
          "Authorization" ("Bearer " ++ tok) := by
      simp [outboundRequest, hmode, hf, hp]
    refine ⟨hsent, ?_, ?_, ?_, ?_, ?_, ?_, ?_, ?_, ?_⟩
    · simp [outboundRequest, hmode, hf, hp]
    · simp [outboundRequest, hmode, hf, hp]
    · simp [outboundRequest, hmode, hf, hp]
    · rw [hob]; exact headerGet_set_same _ _ _
    · intro _
      rw [hob, headerGet_set_other _ _ _ _ hsa, headerGet_del_same]
    · intro hx; simp [hf] at hx
    · intro hx; simp [hp] at hx
    · intro _
      rw [hob, headerGet_set_other _ _ _ _ hia, headerGet_del_other _ _ _ his]
    · intro name hna hns hni
      rw [hob, headerGet_set_other _ _ _ _ hna, headerGet_del_other _ _ _ hns]
  · -- secret stripped, id stripped
    have hob : (outboundRequest options req tok).header =
        headerSet (headerDel (headerDel req.header options.headerClientSecret)
          options.headerClientID) "Authorization" ("Bearer " ++ tok) := by
      simp [outboundRequest, hmode, hf, hp]
    refine ⟨hsent, ?_, ?_, ?_, ?_, ?_, ?_, ?_, ?_, ?_⟩
    · simp [outboundRequest, hmode, hf, hp]
    · simp [outboundRequest, hmode, hf, hp]
    · simp [outboundRequest, hmode, hf, hp]
    · rw [hob]; exact headerGet_set_same _ _ _
    · intro _
      rw [hob, headerGet_set_other _ _ _ _ hsa,
        headerGet_del_other _ _ _ (Ne.symm his), headerGet_del_same]
    · intro hx; simp [hf] at hx
    · intro _
      rw [hob, headerGet_set_other _ _ _ _ hia, headerGet_del_same]
    · intro hx; simp [hp] at hx
    · intro name hna hns hni
      rw [hob, headerGet_set_other _ _ _ _ hna, headerGet_del_other _ _ _ hni,
        headerGet_del_other _ _ _ hns]
  · -- secret forwarded, id forwarded
    have hob : (outboundRequest options req tok).header =
        headerSet req.header "Authorization" ("Bearer " ++ tok) := by
      simp [outboundRequest, hmode, hf, hp]
    refine ⟨hsent, ?_, ?_, ?_, ?_, ?_, ?_, ?_, ?_, ?_⟩
    · simp [outboundRequest, hmode, hf, hp]
    · simp [outboundRequest, hmode, hf, hp]
    · simp [outboundRequest, hmode, hf, hp]
    · rw [hob]; exact headerGet_set_same _ _ _
    · intro hx; simp [hf] at hx
    · intro _
      rw [hob, headerGet_set_other _ _ _ _ hsa]
    · intro hx; simp [hp] at hx
    · intro _
      rw [hob, headerGet_set_other _ _ _ _ hia]
    · intro name hna hns hni
      rw [hob, headerGet_set_other _ _ _ _ hna]
  · -- secret forwarded, id stripped
    have hob : (outboundRequest options req tok).header =
        headerSet (headerDel req.header options.headerClientID)
          "Authorization" ("Bearer " ++ tok) := by
      simp [outboundRequest, hmode, hf, hp]
    refine ⟨hsent, ?_, ?_, ?_, ?_, ?_, ?_, ?_, ?_, ?_⟩
    · simp [outboundRequest, hmode, hf, hp]
    · simp [outboundRequest, hmode, hf, hp]
    · simp [outboundRequest, hmode, hf, hp]
    · rw [hob]; exact headerGet_set_same _ _ _
    · intro hx; simp [hf] at hx
    · intro _
      rw [hob, headerGet_set_other _ _ _ _ hsa,
        headerGet_del_other _ _ _ (Ne.symm his)]
    · intro _
      rw [hob, headerGet_set_other _ _ _ _ hia, headerGet_del_same]
    · intro hx; simp [hp] at hx
    · intro name hna hns hni
      rw [hob, headerGet_set_other _ _ _ _ hna, headerGet_del_other _ _ _ hni]

/-- Witness for C9 at a concrete header-credential call with the default
forwarding flags: secret header stripped, id header kept, other header
kept, Authorization set. -/
theorem c9_outbound_request_frame_witness :
    (doWithOutput c9Options c9World c9Request).2.sentRequest =
      some (outboundRequest c9Options c9Request "tok9") ∧
    (outboundRequest c9Options c9Request "tok9").method = "POST" ∧
    headerGet (outboundRequest c9Options c9Request "tok9").header "Authorization" =
      "Bearer tok9" ∧
    headerGet (outboundRequest c9Options c9Request "tok9").header
      "oauth2-client-secret" = "" ∧
    headerGet (outboundRequest c9Options c9Request "tok9").header
      "oauth2-client-id" = "header-id" ∧
    headerGet (outboundRequest c9Options c9Request "tok9").header
      "X-Other" = "keep" := by
  have h := c9_outbound_request_frame c9Options c9World c9Request "tok9"
    rfl rfl (by decide) (by decide) (by decide)
  refine ⟨h.1, h.2.1, ?_, ?_, ?_, ?_⟩
  · exact h.2.2.2.2.1
  · exact h.2.2.2.2.2.1 rfl
  · exact (h.2.2.2.2.2.2.2.2.1 rfl).trans (by rfl)
  · exact ((h.2.2.2.2.2.2.2.2.2 "X-Other" (by decide) (by decide)
      (by decide))).trans (by rfl)

end ClientCredentials
